import Mathlib

/-!
# JNI-Utility: class handles and method identifiers

A shallow embedding of `fr::Planquart::JNI::Class` (Class.hpp) and
`fr::Planquart::JNI::Method` (Method.hpp, Method.cpp).

The JNI environment (`JNIEnv`, from `<jni.h>`) is external to the repository.
It is taken as a parameter: every JNI function that returns a value is an
arbitrary function of the calls made so far and of its arguments, and every
call is appended to a trace together with the value it returned.  C++ objects
reached through pointers (`Class*`, `Signature*`) live in a `Memory` indexed
by address.
-/

set_option linter.unusedVariables false

namespace JNIUtility

/-! ## The JNI environment -/

/-- JNI object reference; `0` is the null reference. -/
abbrev jobject := Nat

/-- JNI class reference; `0` is the null reference. -/
abbrev jclass := jobject

/-- JNI method identifier; `0` is the null identifier. -/
abbrev jmethodID := Nat

/-- JNI boolean. -/
abbrev jboolean := Bool

/-- The constant `JNI_FALSE` of `<jni.h>`. -/
def JNI_FALSE : jboolean := false

/-- The constant `JNI_TRUE` of `<jni.h>`. -/
def JNI_TRUE : jboolean := true

/-- One call made through the JNI environment, with its arguments and, for the
functions that return a value, the value returned. -/
inductive Event where
  | IsSameObject (ref1 ref2 : jobject) (result : jboolean)
  | NewLocalRef (ref : jobject) (result : jobject)
  | DeleteWeakGlobalRef (ref : jobject)
  | DeleteLocalRef (ref : jobject)
  | GetStaticMethodID (clazz : jclass) (name sig : String) (result : jmethodID)
  | GetMethodID (clazz : jclass) (name sig : String) (result : jmethodID)
  deriving DecidableEq, Repr

/-- The calls made so far, oldest first. -/
abbrev Trace := List Event

/-- The value-returning JNI functions used by the code.  Each answer may depend
on the whole history of calls, so the runtime may change its mind between two
calls (a referent may be collected at any time). -/
structure JNIEnv where
  IsSameObject : Trace → jobject → jobject → jboolean
  NewLocalRef : Trace → jobject → jobject
  GetStaticMethodID : Trace → jclass → String → String → jmethodID
  GetMethodID : Trace → jclass → String → String → jmethodID

/-! ## Data model -/

/-- Modelled from the spec: `Signature` (Signature.hpp is not part of the
sources read here) is the (name, type-descriptor) pair identifying one member
of a class, read through `getName()` and `getType()`. -/
structure Signature where
  name : String
  type : String
  deriving DecidableEq, Repr

/-- The getter `Signature::getName()`. -/
def Signature.getName (this : Signature) : String := this.name

/-- The getter `Signature::getType()`. -/
def Signature.getType (this : Signature) : String := this.type

/-- The data members of `Class` (Class.hpp, lines 206-256).  `className` is a
`Name*`; the four `std::map`s from `Signature*` to `Field*` / `Method*` are
association lists of addresses. -/
structure Class where
  classObject : jclass
  className : Nat
  static_fields : List (Nat × Nat)
  fields : List (Nat × Nat)
  static_methods : List (Nat × Nat)
  methods : List (Nat × Nat)
  deriving DecidableEq, Repr

/-- The data members of `Method` (Method.hpp, lines 31-34).  `classObject` is a
`Class*` and `signature` a `Signature*`, both kept as addresses. -/
structure Method where
  classObject : Nat
  signature : Nat
  methodID : jmethodID
  _static : Bool
  deriving DecidableEq, Repr

/-- The C++ objects reachable through `Class*` and `Signature*` pointers. -/
structure Memory where
  classAt : Nat → Class
  signatureAt : Nat → Signature

/-- Write a `Class` object back at its address. -/
def Memory.storeClass (m : Memory) (p : Nat) (c : Class) : Memory :=
  { m with classAt := fun q => if q = p then c else m.classAt q }

/-! ## Class.hpp -/

/-- The method `Class::release` (Class.hpp, lines 65-71): delete the weak
global reference when `classObject` is not null.  No data member is
assigned. -/
def Class.release (this : Class) (env : JNIEnv) (t : Trace) : Class × Trace :=
  if this.classObject != 0 then
    (this, t ++ [Event.DeleteWeakGlobalRef this.classObject])
  else
    (this, t)

/-- The method `Class::getClassObject` (Class.hpp, lines 92-104). -/
def Class.getClassObject (this : Class) (env : JNIEnv) (t : Trace) :
    jclass × Class × Trace :=
  if this.classObject == 0 then
    (0, this, t)
  else
    let same := env.IsSameObject t this.classObject 0
    let t1 := t ++ [Event.IsSameObject this.classObject 0 same]
    if same == JNI_FALSE then
      let rel := this.release env t1
      (0, rel.1, rel.2)
    else
      let loc := env.NewLocalRef t1 this.classObject
      (loc, this, t1 ++ [Event.NewLocalRef this.classObject loc])

/-! ## Method.hpp, Method.cpp -/

/-- The constructor `Method::Method` (Method.cpp, lines 6-23), named `ctor`
here because `Method` is the name of the structure itself.  The member
initialisers store the two pointers and the tag; the body obtains a class
handle through `Class::getClassObject` and asks the runtime for the method
identifier, with `GetStaticMethodID` or `GetMethodID` according to the tag.
The tag defaults to `false` (Method.hpp, line 29). -/
def Method.ctor (env : JNIEnv) (mem : Memory) (t : Trace)
    (classObject : Nat) (signature : Nat) (isStatic : Bool := false) :
    JNIUtility.Method × Memory × Trace :=
  let sg := mem.signatureAt signature
  if isStatic then
    let got := (mem.classAt classObject).getClassObject env t
    let id := env.GetStaticMethodID got.2.2 got.1 sg.getName sg.getType
    ({ classObject := classObject, signature := signature, methodID := id,
       _static := isStatic },
     mem.storeClass classObject got.2.1,
     got.2.2 ++ [Event.GetStaticMethodID got.1 sg.getName sg.getType id])
  else
    let got := (mem.classAt classObject).getClassObject env t
    let id := env.GetMethodID got.2.2 got.1 sg.getName sg.getType
    ({ classObject := classObject, signature := signature, methodID := id,
       _static := isStatic },
     mem.storeClass classObject got.2.1,
     got.2.2 ++ [Event.GetMethodID got.1 sg.getName sg.getType id])

/-- The method `Method::isStatic` (Method.hpp, lines 23-26): returns the tag;
the object is returned alongside, no data member being assigned. -/
def Method.isStatic (this : Method) : Bool × Method :=
  (this._static, this)

/-- Whether an event is a member-resolution call (`GetStaticMethodID` or
`GetMethodID`). -/
def Event.isResolution : Event → Bool
  | Event.GetStaticMethodID _ _ _ _ => true
  | Event.GetMethodID _ _ _ _ => true
  | _ => false

/-- The method identifier a member-resolution call returned. -/
def Event.resolutionResult : Event → Option jmethodID
  | Event.GetStaticMethodID _ _ _ r => some r
  | Event.GetMethodID _ _ _ r => some r
  | _ => none

/-- The class handle a member-resolution call was given. -/
def Event.resolutionClass : Event → Option jclass
  | Event.GetStaticMethodID c _ _ _ => some c
  | Event.GetMethodID c _ _ _ => some c
  | _ => none

/-- Number of member-resolution calls in a trace. -/
def resolutionCalls (t : Trace) : Nat :=
  (t.filter Event.isResolution).length

/-- Number of `DeleteWeakGlobalRef` calls on the reference `ref` in a trace. -/
def deleteWeakCalls (ref : jobject) (t : Trace) : Nat :=
  t.count (Event.DeleteWeakGlobalRef ref)

/-- A class entry whose weak reference is the handle `5`. -/
def widget : Class :=
  { classObject := 5, className := 1, static_fields := [], fields := [],
    static_methods := [], methods := [(3, 4)] }

/-- A class entry whose weak reference was never set. -/
def unsetClass : Class :=
  { classObject := 0, className := 1, static_fields := [], fields := [],
    static_methods := [], methods := [(3, 4)] }

/-- A memory holding `widget` at every class address and the signature
`area : ()I` at every signature address. -/
def widgetMemory : Memory :=
  { classAt := fun _ => widget, signatureAt := fun _ => ⟨"area", "()I"⟩ }

/-- A memory holding `unsetClass` at every class address. -/
def unsetMemory : Memory :=
  { classAt := fun _ => unsetClass, signatureAt := fun _ => ⟨"area", "()I"⟩ }

/-- A runtime in which every referent is alive: a reference is the same object
as null only when it is null, `NewLocalRef` hands out the handle `7`, and both
resolutions succeed. -/
def liveEnv : JNIEnv :=
  { IsSameObject := fun _ a b => decide (a = b),
    NewLocalRef := fun _ r => if r = 0 then 0 else 7,
    GetStaticMethodID := fun _ _ _ _ => 43,
    GetMethodID := fun _ _ _ _ => 42 }

/-- A runtime in which every referent has been collected: every weak reference
is the same object as null, `NewLocalRef` yields null, and resolutions fail
with the null identifier. -/
def collectedEnv : JNIEnv :=
  { IsSameObject := fun _ _ _ => true,
    NewLocalRef := fun _ _ => 0,
    GetStaticMethodID := fun _ _ _ _ => 0,
    GetMethodID := fun _ _ _ _ => 0 }

/-! ## Basic facts about `Class::release` and `Class::getClassObject` -/

theorem release_fst (c : Class) (env : JNIEnv) (t : Trace) :
    (c.release env t).1 = c := by
  unfold Class.release
  split <;> rfl

theorem getClassObject_class (c : Class) (env : JNIEnv) (t : Trace) :
    (c.getClassObject env t).2.1 = c := by
  unfold Class.getClassObject
  split
  · rfl
  · dsimp only
    split
    · exact release_fst c env _
    · rfl

/-- What `getClassObject` does on a set weak reference when the null probe
answers `JNI_FALSE`: it takes the `release` branch and returns the null
handle. -/
theorem getClassObject_of_probe_false (c : Class) (env : JNIEnv) (t : Trace)
    (hc : c.classObject ≠ 0) (hp : env.IsSameObject t c.classObject 0 = false) :
    c.getClassObject env t =
      (0, c, t ++ [Event.IsSameObject c.classObject 0 false,
                   Event.DeleteWeakGlobalRef c.classObject]) := by
  simp [Class.getClassObject, Class.release, JNI_FALSE, hc, hp]

/-- What `getClassObject` does on a set weak reference when the null probe
answers `JNI_TRUE`: it returns the result of `NewLocalRef` and releases
nothing. -/
theorem getClassObject_of_probe_true (c : Class) (env : JNIEnv) (t : Trace)
    (hc : c.classObject ≠ 0) (hp : env.IsSameObject t c.classObject 0 = true) :
    c.getClassObject env t =
      (env.NewLocalRef (t ++ [Event.IsSameObject c.classObject 0 true]) c.classObject,
       c,
       t ++ [Event.IsSameObject c.classObject 0 true,
             Event.NewLocalRef c.classObject
               (env.NewLocalRef (t ++ [Event.IsSameObject c.classObject 0 true])
                 c.classObject)]) := by
  simp [Class.getClassObject, JNI_FALSE, hc, hp]

theorem resolutionCalls_append (t u : Trace) :
    resolutionCalls (t ++ u) = resolutionCalls t + resolutionCalls u := by
  simp [resolutionCalls]

theorem getClassObject_resolutionCalls (c : Class) (env : JNIEnv) (t : Trace) :
    resolutionCalls (c.getClassObject env t).2.2 = resolutionCalls t := by
  unfold Class.getClassObject
  split
  · rfl
  · dsimp only
    split
    · unfold Class.release
      split <;> simp [resolutionCalls, Event.isResolution]
    · simp [resolutionCalls, Event.isResolution]

/-! ## Class::getClassObject -/

/-- C1 (evaluation at a live class): the weak reference of `widget` is set and
the runtime answers the null probe with false (the referent is alive), and
`NewLocalRef` would hand out the handle `7`; yet `getClassObject` returns the
null handle, makes no `NewLocalRef` call and calls `DeleteWeakGlobalRef` on
the weak reference once. -/
theorem C1_getClassObject_live_returns_null :
    widget.classObject ≠ 0 ∧
    liveEnv.IsSameObject [] widget.classObject 0 = false ∧
    liveEnv.NewLocalRef [Event.IsSameObject 5 0 false] widget.classObject = 7 ∧
    (widget.getClassObject liveEnv []).1 = 0 ∧
    (widget.getClassObject liveEnv []).2.2 =
      [Event.IsSameObject 5 0 false, Event.DeleteWeakGlobalRef 5] ∧
    deleteWeakCalls 5 (widget.getClassObject liveEnv []).2.2 = 1 := by
  decide

/-- C2 (evaluation at a collected class): the weak reference of `widget` is set
and the runtime answers the null probe with true (the referent was collected);
`getClassObject` asks for a local reference instead of releasing the weak
reference: `DeleteWeakGlobalRef` is never called and the value returned is
whatever `NewLocalRef` answered.  For every runtime, the weak reference of
`widget` is deleted exactly when the probe answers false. -/
theorem C2_getClassObject_collected_keeps_weak_reference :
    widget.classObject ≠ 0 ∧
    collectedEnv.IsSameObject [] widget.classObject 0 = true ∧
    (widget.getClassObject collectedEnv []).2.2 =
      [Event.IsSameObject 5 0 true, Event.NewLocalRef 5 0] ∧
    deleteWeakCalls 5 (widget.getClassObject collectedEnv []).2.2 = 0 ∧
    (∀ env : JNIEnv,
      (widget.getClassObject env []).1 =
        (if env.IsSameObject [] 5 0 then
          env.NewLocalRef [Event.IsSameObject 5 0 true] 5 else 0) ∧
      deleteWeakCalls 5 (widget.getClassObject env []).2.2 =
        (if env.IsSameObject [] 5 0 then 0 else 1)) := by
  refine ⟨by decide, by decide, by decide, by decide, ?_⟩
  intro env
  cases hp : env.IsSameObject [] 5 0
  · have h := getClassObject_of_probe_false widget env [] (by decide) hp
    rw [h]
    simp [deleteWeakCalls, widget]
  · have h := getClassObject_of_probe_true widget env [] (by decide) hp
    rw [h]
    simp [deleteWeakCalls, widget]

/-- C3 (evaluation at two calls in a row): the first `getClassObject` on
`widget` returns the null handle after releasing the weak reference, but
`classObject` still holds the released handle, so the second call probes the
runtime again and deletes the same weak reference a second time. -/
theorem C3_getClassObject_second_call_contacts_runtime :
    (widget.getClassObject liveEnv []).1 = 0 ∧
    (widget.getClassObject liveEnv []).2.1.classObject = 5 ∧
    ((widget.getClassObject liveEnv []).2.1.getClassObject liveEnv
        (widget.getClassObject liveEnv []).2.2).2.2 =
      (widget.getClassObject liveEnv []).2.2 ++
        [Event.IsSameObject 5 0 false, Event.DeleteWeakGlobalRef 5] := by
  decide

/-- C4: on a class entry whose weak reference is unset (`classObject = 0`),
`getClassObject` returns the null handle, makes no runtime call (the trace is
unchanged) and leaves the entry unchanged, whatever the runtime. -/
theorem C4_getClassObject_unset (c : Class) (env : JNIEnv) (t : Trace)
    (h : c.classObject = 0) :
    c.getClassObject env t = (0, c, t) := by
  unfold Class.getClassObject
  simp [h]

/-- C4 at `unsetClass`, after two earlier calls, with the runtime `liveEnv`. -/
theorem C4_getClassObject_unset_witness :
    unsetClass.classObject = 0 ∧
    unsetClass.getClassObject liveEnv
        [Event.IsSameObject 5 0 false, Event.DeleteWeakGlobalRef 5] =
      (0, unsetClass, [Event.IsSameObject 5 0 false, Event.DeleteWeakGlobalRef 5]) :=
  ⟨by decide, C4_getClassObject_unset unsetClass liveEnv _ (by decide)⟩

/-! ## Class::release -/

/-- C7 (evaluation at two releases in a row): `release` does not clear
`classObject`, so the second `release` on `widget` deletes the same weak
reference again: `DeleteWeakGlobalRef 5` is called twice in total.  On the
unset entry `release` makes no call. -/
theorem C7_release_twice_deletes_twice :
    (widget.release liveEnv []).1.classObject = 5 ∧
    ((widget.release liveEnv []).1.release liveEnv
        (widget.release liveEnv []).2).2 =
      [Event.DeleteWeakGlobalRef 5, Event.DeleteWeakGlobalRef 5] ∧
    deleteWeakCalls 5 ((widget.release liveEnv []).1.release liveEnv
        (widget.release liveEnv []).2).2 = 2 ∧
    (unsetClass.release liveEnv []).2 = [] := by
  decide

/-! ## Method::Method and Method::isStatic -/

/-- C5 (counterexample): with a runtime whose `GetMethodID` and
`GetStaticMethodID` fail (null identifier), the constructor still yields a
`Method` object, and that object holds the null `methodID`. -/
theorem C5_ctor_yields_null_methodID :
    collectedEnv.GetMethodID
        [Event.IsSameObject 5 0 true, Event.NewLocalRef 5 0] 0 "area" "()I" = 0 ∧
    (Method.ctor collectedEnv widgetMemory [] 10 20 false).1 =
      { classObject := 10, signature := 20, methodID := 0, _static := false } ∧
    (Method.ctor collectedEnv widgetMemory [] 10 20 true).1 =
      { classObject := 10, signature := 20, methodID := 0, _static := true } := by
  decide

/-- C5 (amended): the constructor always yields a `Method` object; its last
runtime call is a member resolution, and the stored `methodID` is exactly the
value that call returned, so the `methodID` is null exactly when the
resolution yielded null. -/
theorem C5_ctor_methodID_is_resolution_result (env : JNIEnv) (mem : Memory)
    (t : Trace) (classObject signature : Nat) (isStatic : Bool) :
    ∃ e : Event,
      (Method.ctor env mem t classObject signature isStatic).2.2.getLast? = some e ∧
      e.isResolution = true ∧
      e.resolutionResult =
        some (Method.ctor env mem t classObject signature isStatic).1.methodID ∧
      ((Method.ctor env mem t classObject signature isStatic).1.methodID = 0 ↔
        e.resolutionResult = some 0) := by
  cases isStatic
  · refine ⟨Event.GetMethodID ((mem.classAt classObject).getClassObject env t).1
      (mem.signatureAt signature).getName (mem.signatureAt signature).getType
      (env.GetMethodID ((mem.classAt classObject).getClassObject env t).2.2
        ((mem.classAt classObject).getClassObject env t).1
        (mem.signatureAt signature).getName (mem.signatureAt signature).getType),
      ?_, rfl, rfl, ?_⟩
    · simp [Method.ctor]
    · simp [Event.resolutionResult, Method.ctor]
  · refine ⟨Event.GetStaticMethodID ((mem.classAt classObject).getClassObject env t).1
      (mem.signatureAt signature).getName (mem.signatureAt signature).getType
      (env.GetStaticMethodID ((mem.classAt classObject).getClassObject env t).2.2
        ((mem.classAt classObject).getClassObject env t).1
        (mem.signatureAt signature).getName (mem.signatureAt signature).getType),
      ?_, rfl, rfl, ?_⟩
    · simp [Method.ctor]
    · simp [Event.resolutionResult, Method.ctor]

/-- C6: `isStatic` returns the tag given to the constructor and leaves the
`Method` object unchanged; a `Method` constructed without a tag is an instance
handle. -/
theorem C6_isStatic_returns_tag (env : JNIEnv) (mem : Memory) (t : Trace)
    (classObject signature : Nat) (b : Bool) :
    (Method.ctor env mem t classObject signature b).1.isStatic =
      (b, (Method.ctor env mem t classObject signature b).1) ∧
    (Method.ctor env mem t classObject signature).1.isStatic.1 = false := by
  constructor
  · cases b <;> rfl
  · rfl

/-- C9 (evaluation at classes for which `getClassObject` yields null): on the
unset entry, and on `widget` with the runtime `liveEnv`, `getClassObject`
returns the null handle and the constructor still calls `GetMethodID`
(`GetStaticMethodID` for a static tag) with that null class handle. -/
theorem C9_ctor_resolves_on_null_class :
    (unsetClass.getClassObject liveEnv []).1 = 0 ∧
    (Method.ctor liveEnv unsetMemory [] 10 20 false).2.2 =
      [Event.GetMethodID 0 "area" "()I" 42] ∧
    (Method.ctor liveEnv unsetMemory [] 10 20 true).2.2 =
      [Event.GetStaticMethodID 0 "area" "()I" 43] ∧
    (widget.getClassObject liveEnv []).1 = 0 ∧
    (Method.ctor liveEnv widgetMemory [] 10 20 false).2.2 =
      [Event.IsSameObject 5 0 false, Event.DeleteWeakGlobalRef 5,
       Event.GetMethodID 0 "area" "()I" 42] := by
  decide

/-- C10: the constructor makes exactly one member-resolution call, after
`getClassObject`: `GetStaticMethodID` when the tag is true and `GetMethodID`
when it is false, on the handle `getClassObject` returned and the name and
type of the signature; the stored `methodID` is the result of that call, and
the stored `classObject` and `signature` are the arguments. -/
theorem C10_ctor_resolution_variant (env : JNIEnv) (mem : Memory) (t : Trace)
    (classObject signature : Nat) (b : Bool) :
    (Method.ctor env mem t classObject signature b).2.2 =
      ((mem.classAt classObject).getClassObject env t).2.2 ++
        [if b then
          Event.GetStaticMethodID ((mem.classAt classObject).getClassObject env t).1
            (mem.signatureAt signature).getName (mem.signatureAt signature).getType
            (env.GetStaticMethodID ((mem.classAt classObject).getClassObject env t).2.2
              ((mem.classAt classObject).getClassObject env t).1
              (mem.signatureAt signature).getName (mem.signatureAt signature).getType)
        else
          Event.GetMethodID ((mem.classAt classObject).getClassObject env t).1
            (mem.signatureAt signature).getName (mem.signatureAt signature).getType
            (env.GetMethodID ((mem.classAt classObject).getClassObject env t).2.2
              ((mem.classAt classObject).getClassObject env t).1
              (mem.signatureAt signature).getName (mem.signatureAt signature).getType)] ∧
    resolutionCalls (Method.ctor env mem t classObject signature b).2.2 =
      resolutionCalls t + 1 ∧
    (Method.ctor env mem t classObject signature b).1.methodID =
      (if b then
        env.GetStaticMethodID ((mem.classAt classObject).getClassObject env t).2.2
          ((mem.classAt classObject).getClassObject env t).1
          (mem.signatureAt signature).getName (mem.signatureAt signature).getType
      else
        env.GetMethodID ((mem.classAt classObject).getClassObject env t).2.2
          ((mem.classAt classObject).getClassObject env t).1
          (mem.signatureAt signature).getName (mem.signatureAt signature).getType) ∧
    (Method.ctor env mem t classObject signature b).1.classObject = classObject ∧
    (Method.ctor env mem t classObject signature b).1.signature = signature := by
  cases b
  · refine ⟨?_, ?_, ?_, rfl, rfl⟩
    · simp [Method.ctor]
    · simp only [Method.ctor, Bool.false_eq_true, if_false, resolutionCalls_append,
        getClassObject_resolutionCalls]
      rfl
    · simp [Method.ctor]
  · refine ⟨?_, ?_, ?_, rfl, rfl⟩
    · simp [Method.ctor]
    · simp only [Method.ctor, if_true, resolutionCalls_append,
        getClassObject_resolutionCalls]
      rfl
    · simp [Method.ctor]

end JNIUtility
